import Mathlib

/-!
Verification of the core of the arikawa Discord gateway library: a shallow
embedding of the heartbeat pacemaker (gateway/pacemaker.go), the gateway
connection management (Open/Start/Close and the event loop), and the
session facade (session/session.go), with theorems checking the behaviour
the specification describes.
-/

namespace Arikawa

/-- Errors flowing through the gateway, as an inductive value type.
`errDead` embeds `ErrDead` ("no heartbeat replied"), `errInvalidSession`
embeds `ErrInvalidSession`, `msg` embeds an `errors.New` value and
`wrap` embeds `errors.Wrap msg inner`. -/
inductive GErr where
  | errDead
  | errInvalidSession
  | msg (s : String)
  | wrap (s : String) (inner : GErr)
deriving DecidableEq, Repr

/-- The fields of `Pacemaker` (gateway/pacemaker.go) that carry state:
`Heartrate` is a `time.Duration` in nanoseconds, `SentBeat` and `EchoBeat`
are UnixNano timestamps, all `int64` in Go, embedded as `Int`. -/
structure Pacemaker where
  Heartrate : Int
  SentBeat : Int
  EchoBeat : Int
deriving DecidableEq, Repr

/-- Embedding of `Pacemaker.Echo` (pacemaker.go line 33): stores the
current time into `EchoBeat`. The current time is passed explicitly. -/
def Pacemaker.Echo (p : Pacemaker) (now : Int) : Pacemaker :=
  { p with EchoBeat := now }

/-- Embedding of `Pacemaker.Dead` (pacemaker.go lines 40-59): false when
either timestamp is zero, otherwise `sent - echo > int64(p.Heartrate) * 2`. -/
def Pacemaker.Dead (p : Pacemaker) : Bool :=
  if p.EchoBeat = 0 ∨ p.SentBeat = 0 then false
  else decide (p.SentBeat - p.EchoBeat > p.Heartrate * 2)

/-- One observable event of a pacemaker run: a close of the stop channel,
a ticker tick at absolute time `now` whose `p.Pace()` call returns
`paceErr`, or a concurrent `Echo()` from the receive path stamping time
`now`. -/
inductive PEvent where
  | stop
  | tick (now : Int) (paceErr : Option GErr)
  | echo (now : Int)
deriving DecidableEq, Repr

/-- Exit value of `Pacemaker.start` (pacemaker.go lines 68-97): the
distinguished `ErrDead`, the error returned by `p.Pace()`, or `nil` on a
stop signal. -/
inductive PExit where
  | dead
  | paceFail (e : GErr)
  | stopped
deriving DecidableEq, Repr

/-- The loop body of `Pacemaker.start` (pacemaker.go lines 79-96), run
over a finite schedule of events. On `stop` it returns nil (`stopped`);
on a tick it calls `Pace()` and exits with its error if any, else stamps
`SentBeat` with the current time and exits with `ErrDead` if `Dead()`;
an `echo` event is the receive path restamping `EchoBeat`. `none` means
the loop is still running after the schedule is exhausted. -/
def pacemakerRun (p : Pacemaker) : List PEvent → Option PExit
  | [] => none
  | PEvent.stop :: _ => some PExit.stopped
  | PEvent.echo now :: rest => pacemakerRun (p.Echo now) rest
  | PEvent.tick now paceErr :: rest =>
    match paceErr with
    | some e => some (PExit.paceFail e)
    | none =>
      let p2 : Pacemaker := { p with SentBeat := now }
      if p2.Dead then some PExit.dead else pacemakerRun p2 rest

/-- Entry of `Pacemaker.start` (pacemaker.go lines 68-78): before entering
the loop it performs one `p.Echo()` at the current time `now0`, then runs
the loop. -/
def Pacemaker.startRun (p : Pacemaker) (now0 : Int) (tr : List PEvent) :
    Option PExit :=
  pacemakerRun (p.Echo now0) tr

/-- The pacemaker as `Gateway.start` constructs it (gateway.go lines
266-270): only `Heartrate` set, both timestamps zero. -/
def pmInit (hr : Int) : Pacemaker :=
  { Heartrate := hr, SentBeat := 0, EchoBeat := 0 }

/-- A schedule of `n` ticks at times `t0 + i*hr` for `i = 1..n`, with
`Pace` succeeding, and no `echo` event: the ticker firing every
`Heartrate` while no HEARTBEAT_ACK ever arrives after the initial stamp
at `t0`. -/
def ticksFrom (t0 hr : Int) : Int → Nat → List PEvent
  | _, 0 => []
  | i, Nat.succ n => PEvent.tick (t0 + i * hr) none :: ticksFrom t0 hr (i + 1) n

/-- The no-ack schedule starting at tick index 1. -/
def noAckTrace (t0 hr : Int) (n : Nat) : List PEvent :=
  ticksFrom t0 hr 1 n

/-- A schedule is good for last-echo value `echo` when every `Pace` call
succeeds and, at the moment of every dead-check, the heartbeat just sent
is within `2 * hr` of the last `EchoBeat` stamp: the ack arrived within
two heartrates of every heartbeat. -/
def GoodTrace (hr : Int) : Int → List PEvent → Prop
  | _, [] => True
  | _, PEvent.stop :: _ => True
  | _, PEvent.echo e :: rest => GoodTrace hr e rest
  | echo, PEvent.tick now paceErr :: rest =>
    paceErr = none ∧ now - echo ≤ 2 * hr ∧ GoodTrace hr echo rest

/-- The stop-channel part of a `Pacemaker`: `stop` models whether the
`p.stop` field is non-nil, and `stopCloses` is ghost instrumentation
counting how many times `close()` has been executed on the channel the
field held. -/
structure StopState where
  stop : Bool
  stopCloses : Nat
deriving DecidableEq, Repr

/-- Embedding of `Pacemaker.Stop` (pacemaker.go lines 61-66): when
`p.stop` is non-nil, close the channel and set the field to nil;
otherwise do nothing. -/
def stopOp (s : StopState) : StopState :=
  if s.stop then { stop := false, stopCloses := s.stopCloses + 1 } else s

/-- Repeated calls to `Pacemaker.Stop`. -/
def stopIter : Nat → StopState → StopState
  | 0, s => s
  | Nat.succ n, s => stopIter n (stopOp s)

/-- The stop state right after `Pacemaker.StartAsync` (pacemaker.go lines
100-115): a fresh channel is stored in `p.stop` and has never been
closed. -/
def startAsyncStop : StopState :=
  { stop := true, stopCloses := 0 }

/-- Observable steps of `Gateway.Close`: the pacemaker's stop channel is
closed, `g.waitGroup.Wait()` returns, `g.WS.Close(nil)` runs. -/
inductive CloseEvent where
  | stopClosed
  | waited
  | wsClosed
deriving DecidableEq, Repr

/-- The state `Gateway.Close` (gateway.go lines 152-170) acts on: the
pacemaker's stop channel, the number of outstanding goroutines registered
in `g.waitGroup` (the pacemaker and the event reader), and whether the
websocket transport is still open. -/
structure CloseState where
  pm : StopState
  tasks : Nat
  wsOpen : Bool
deriving DecidableEq, Repr

/-- The call `g.Pacemaker.Stop()` as issued from `Gateway.Close`,
together with its observable trace. -/
def pacemakerStopRun (s : CloseState) : CloseState × List CloseEvent :=
  if s.pm.stop then ({ s with pm := stopOp s.pm }, [CloseEvent.stopClosed])
  else (s, [])

/-- Embedding of `Gateway.Close` (gateway.go lines 152-170): stop the
pacemaker, wait on `g.waitGroup` - the wait returns only once every owned
task has exited, leaving the task count at zero - mark the waitgroup
empty, and only then close the websocket, returning the transport's close
result `wsCloseErr`. -/
def gatewayClose (s : CloseState) (wsCloseErr : Option GErr) :
    Option GErr × CloseState × List CloseEvent :=
  let r1 := pacemakerStopRun s
  let s2 : CloseState := { r1.1 with tasks := 0 }
  let s3 : CloseState := { s2 with wsOpen := false }
  (wsCloseErr, s3, r1.2 ++ [CloseEvent.waited, CloseEvent.wsClosed])

/-- Embedding of `Gateway.Start` (gateway.go lines 241-250): run the
inner `start`; on failure call `Close`, discard the close result (it is
only debug-logged), and return the original `start` error; on success
return nil without closing anything. The result carries the returned
error, the final state and the trace. -/
def gatewayStartWrapper (s : CloseState) (startErr : Option GErr)
    (wsCloseErr : Option GErr) :
    Option GErr × CloseState × List CloseEvent :=
  match startErr with
  | some e =>
    let r := gatewayClose s wsCloseErr
    (some e, r.2.1, r.2.2)
  | none => (none, s, [])

/-- Outcome of one iteration of the retry loop in `Gateway.Open`
(gateway.go lines 187-237): the dial fails, the dial succeeds but
`Start()` returns an error, or both succeed. -/
inductive Attempt where
  | dialFail (e : GErr)
  | startFail (e : GErr)
  | success
deriving DecidableEq, Repr

/-- An `ErrorLog` entry written by `Gateway.Open`: the wrap of a dial
error or the wrap of a start error. -/
inductive OpenLog where
  | dialErr (e : GErr)
  | startErr (e : GErr)
deriving DecidableEq, Repr

/-- The retry loop of `Gateway.Open` over a finite prefix of iteration
outcomes: a dial failure is logged and the loop continues; a start
failure equal to `ErrInvalidSession` continues without logging; any other
start failure is logged and the loop continues; on success the loop
returns nil. A `none` first component means the loop is still running
when the prefix ends. -/
def openRun : List Attempt → Option Unit × List OpenLog
  | [] => (none, [])
  | Attempt.dialFail e :: rest =>
    let r := openRun rest
    (r.1, OpenLog.dialErr e :: r.2)
  | Attempt.startFail e :: rest =>
    if e = GErr.errInvalidSession then openRun rest
    else
      let r := openRun rest
      (r.1, OpenLog.startErr e :: r.2)
  | Attempt.success :: _ => (some (), [])

/-- An inbound frame as the listen channel delivers it to the event loop:
either the frame carries a decode error (`ev.Error != nil`, a malformed
envelope), or it carries `ev.Data` of length `dataLen` together with the
outcome `handleErr` of `HandleEvent` on that data. -/
inductive Frame where
  | errFrame (e : GErr)
  | dataFrame (dataLen : Nat) (handleErr : Option GErr)
deriving DecidableEq, Repr

/-- One input to the `select` in `Gateway.eventLoop` (gateway.go lines
323-357): a value received on `g.paceDeath` (`none` embeds a nil
pacemaker exit) or a frame received on the listen channel. -/
inductive LoopIn where
  | paceDeath (e : Option GErr)
  | frame (f : Frame)
deriving DecidableEq, Repr

/-- Exit value of `Gateway.eventLoop`: nil when the pacemaker stopped
without error, otherwise an error with a message. -/
inductive LoopExit where
  | ok
  | fail (msg : String)
deriving DecidableEq, Repr

/-- Embedding of `Gateway.eventLoop` (gateway.go lines 323-357) over a
finite prefix of inputs, returning the exit (`none` while still looping)
and the list of errors passed to `g.ErrorLog`. A frame with a decode
error is logged and the loop continues; an empty-data frame makes the
loop return an error; a `HandleEvent` failure is logged (wrapped) and the
loop continues; a pacemaker death ends the loop, with nil exactly when
the pacemaker exited without error. -/
def eventLoopRun : List LoopIn → Option LoopExit × List GErr
  | [] => (none, [])
  | LoopIn.paceDeath none :: _ => (some LoopExit.ok, [])
  | LoopIn.paceDeath (some _) :: _ =>
    (some (LoopExit.fail "Pacemaker died, reconnecting."), [])
  | LoopIn.frame (Frame.errFrame e) :: rest =>
    let r := eventLoopRun rest
    (r.1, e :: r.2)
  | LoopIn.frame (Frame.dataFrame 0 _) :: _ =>
    (some (LoopExit.fail "Event data is empty, reconnecting."), [])
  | LoopIn.frame (Frame.dataFrame (Nat.succ _) none) :: rest =>
    eventLoopRun rest
  | LoopIn.frame (Frame.dataFrame (Nat.succ _) (some e)) :: rest =>
    let r := eventLoopRun rest
    (r.1, GErr.wrap "WS handler error" e :: r.2)

/-- Embedding of `Gateway.handleWS` (gateway.go lines 310-321): after the
event loop exits, a reconnect is attempted iff the exit carried an
error. -/
def handleWSReconnects (x : LoopExit) : Bool :=
  match x with
  | LoopExit.ok => false
  | LoopExit.fail _ => true

/-- The session-identity state of a `Gateway`: the stored `SessionID`
(gateway.go line 87), empty when there is no session to resume. -/
structure GwSession where
  SessionID : String
deriving DecidableEq, Repr

/-- What the authentication step of `Gateway.start` sends. -/
inductive StartSend where
  | identify
  | resume (sessionID : String)
deriving DecidableEq, Repr

/-- The authentication branch of `Gateway.start` (gateway.go lines
276-285): when the stored `SessionID` is empty, `Identify()` is called;
otherwise `Resume()` is called for the stored session. -/
def startAuth (g : GwSession) : StartSend :=
  if g.SessionID = "" then StartSend.identify
  else StartSend.resume g.SessionID

/-- Modelled from the spec: the `READY` handler, whose source file is not
among the provided sources, stores the session id carried by the `READY`
event into `SessionID` ("sessionID is learned from the READY event"). -/
def handleReady (g : GwSession) (sessionID : String) : GwSession :=
  { g with SessionID := sessionID }

/-- Modelled from the spec: the `INVALID_SESSION` handler, whose source
file is not among the provided sources, clears `SessionID` when the
boolean payload says the session is not resumable, and keeps it
otherwise ("cleared on non-resumable INVALID_SESSION"). -/
def handleInvalidSession (g : GwSession) (resumable : Bool) : GwSession :=
  if resumable then g else { g with SessionID := "" }

/-- The REST login payload the remote returns from `client.Login` or
`client.TOTP`: a token, the MFA-required flag and the MFA ticket. -/
structure LoginResponse where
  Token : String
  MFA : Bool
  Ticket : String
deriving DecidableEq, Repr

/-- Outcome of `session.Login`: a wrap of a transport error, the
distinguished sentinel `ErrMFA`, or a session constructed by `New` from
the given token. -/
inductive LoginResult where
  | wrapped (msg : String) (inner : GErr)
  | mfaErr
  | session (token : String)
deriving DecidableEq, Repr

/-- Embedding of `session.Login` (session/session.go lines 61-88), with
the remote's responses passed explicitly: `loginResp` is what
`client.Login(email, password)` returns and `totpResp` what
`client.TOTP(mfa, l.Ticket)` returns. -/
def sessionLogin (loginResp : Except GErr LoginResponse)
    (totpResp : Except GErr LoginResponse) (mfa : String) : LoginResult :=
  match loginResp with
  | Except.error e => LoginResult.wrapped "Failed to login" e
  | Except.ok l =>
    if l.Token ≠ "" ∧ l.MFA = false then LoginResult.session l.Token
    else if mfa = "" then LoginResult.mfaErr
    else
      match totpResp with
      | Except.error e => LoginResult.wrapped "Failed to login with 2FA" e
      | Except.ok l2 => LoginResult.session l2.Token

theorem dead_false_of_le (p : Pacemaker)
    (h : p.SentBeat - p.EchoBeat ≤ p.Heartrate * 2) : p.Dead = false := by
  unfold Pacemaker.Dead
  by_cases hz : p.EchoBeat = 0 ∨ p.SentBeat = 0
  · simp [hz]
  · simp [hz]
    omega

theorem dead_true_of (p : Pacemaker) (he : p.EchoBeat ≠ 0)
    (hs : p.SentBeat ≠ 0) (hgt : p.SentBeat - p.EchoBeat > p.Heartrate * 2) :
    p.Dead = true := by
  unfold Pacemaker.Dead
  simp [he, hs]
  omega

theorem goodTrace_not_dead :
    ∀ (tr : List PEvent) (p : Pacemaker),
      GoodTrace p.Heartrate p.EchoBeat tr →
      pacemakerRun p tr ≠ some PExit.dead := by
  intro tr
  induction tr with
  | nil => intro p _; simp [pacemakerRun]
  | cons ev rest ih =>
    intro p hg
    cases ev with
    | stop => simp [pacemakerRun]
    | echo e =>
      simp only [pacemakerRun]
      exact ih (p.Echo e) (by simpa [Pacemaker.Echo, GoodTrace] using hg)
    | tick now paceErr =>
      obtain ⟨hpe, hle, hrest⟩ := hg
      subst hpe
      simp only [pacemakerRun]
      have hd : Pacemaker.Dead { p with SentBeat := now } = false :=
        dead_false_of_le _ (by simp; omega)
      simp only [hd, if_false, Bool.false_eq_true]
      exact ih { p with SentBeat := now } (by simpa [GoodTrace] using hrest)

theorem noAck_dead (t0 hr : Int) (m : Nat) (h1 : 0 < t0) (h2 : 0 < hr) :
    Pacemaker.startRun (pmInit hr) t0 (noAckTrace t0 hr (m + 3)) =
      some PExit.dead := by
  have e3 : m + 3 = Nat.succ (Nat.succ (Nat.succ m)) := rfl
  have d1 : Pacemaker.Dead ⟨hr, t0 + 1 * hr, t0⟩ = false :=
    dead_false_of_le _ (show t0 + 1 * hr - t0 ≤ hr * 2 by omega)
  have d2 : Pacemaker.Dead ⟨hr, t0 + 2 * hr, t0⟩ = false :=
    dead_false_of_le _ (show t0 + 2 * hr - t0 ≤ hr * 2 by omega)
  have d3 : Pacemaker.Dead ⟨hr, t0 + 3 * hr, t0⟩ = true :=
    dead_true_of _ (show t0 ≠ 0 by omega) (show t0 + 3 * hr ≠ 0 by omega)
      (show t0 + 3 * hr - t0 > hr * 2 by omega)
  simp [Pacemaker.startRun, noAckTrace, e3, ticksFrom, pacemakerRun,
    Pacemaker.Echo, pmInit, d1, d2, d3]

/-- Claim C5: with `Pace` succeeding at every tick, if `EchoBeat` is never
restamped after the initial `Echo` then the pacemaker loop exits with
`ErrDead` (once, at the first tick where the check trips, independently of
any later events), and conversely on any schedule where every heartbeat is
acked within `2 * Heartrate` the loop never exits with `ErrDead`. -/
theorem pacemaker_liveness :
    (∀ (t0 hr : Int) (m : Nat), 0 < t0 → 0 < hr →
      Pacemaker.startRun (pmInit hr) t0 (noAckTrace t0 hr (m + 3)) =
        some PExit.dead) ∧
    (∀ (tr : List PEvent) (p : Pacemaker),
      GoodTrace p.Heartrate p.EchoBeat tr →
      pacemakerRun p tr ≠ some PExit.dead) :=
  ⟨noAck_dead, goodTrace_not_dead⟩

theorem pacemaker_liveness_witness :
    Pacemaker.startRun (pmInit 5) 7 (noAckTrace 7 5 3) = some PExit.dead ∧
    pacemakerRun ⟨5, 0, 7⟩ [PEvent.tick 12 none] ≠ some PExit.dead :=
  ⟨pacemaker_liveness.1 7 5 0 (by decide) (by decide),
   pacemaker_liveness.2 [PEvent.tick 12 none] ⟨5, 0, 7⟩
     (by simp [GoodTrace])⟩

/-- Claim C6: the loop's exit value is one of exactly three cases; a
closed stop channel yields a nil exit, a `Pace` failure yields that
error, a true `Dead()` check after stamping `SentBeat` yields `ErrDead`;
and `start` stamps `EchoBeat` with the current time before entering the
loop. -/
theorem pacemaker_exit_cases :
    (∀ (p : Pacemaker) (tr : List PEvent) (r : PExit),
      pacemakerRun p tr = some r →
      r = PExit.dead ∨ (∃ e, r = PExit.paceFail e) ∨ r = PExit.stopped) ∧
    (∀ (p : Pacemaker) (tr : List PEvent),
      pacemakerRun p (PEvent.stop :: tr) = some PExit.stopped) ∧
    (∀ (p : Pacemaker) (tr : List PEvent) (now : Int) (e : GErr),
      pacemakerRun p (PEvent.tick now (some e) :: tr) =
        some (PExit.paceFail e)) ∧
    (∀ (p : Pacemaker) (tr : List PEvent) (now : Int),
      ({ p with SentBeat := now } : Pacemaker).Dead = true →
      pacemakerRun p (PEvent.tick now none :: tr) = some PExit.dead) ∧
    (∀ (p : Pacemaker) (now0 : Int) (tr : List PEvent),
      Pacemaker.startRun p now0 tr =
        pacemakerRun { p with EchoBeat := now0 } tr) := by
  refine ⟨?_, ?_, ?_, ?_, ?_⟩
  · intro p tr r _
    cases r
    · exact Or.inl rfl
    · exact Or.inr (Or.inl ⟨_, rfl⟩)
    · exact Or.inr (Or.inr rfl)
  · intro p tr
    simp [pacemakerRun]
  · intro p tr now e
    simp [pacemakerRun]
  · intro p tr now hd
    simp [pacemakerRun, hd]
  · intro p now0 tr
    rfl

theorem pacemaker_exit_cases_witness :
    (PExit.stopped = PExit.dead ∨
      (∃ e, PExit.stopped = PExit.paceFail e) ∨
      PExit.stopped = PExit.stopped) ∧
    pacemakerRun (pmInit 1) [PEvent.stop] = some PExit.stopped ∧
    pacemakerRun (pmInit 1) [PEvent.tick 4 (some GErr.errDead)] =
      some (PExit.paceFail GErr.errDead) ∧
    pacemakerRun ⟨1, 0, 1⟩ [PEvent.tick 9 none] = some PExit.dead ∧
    Pacemaker.startRun (pmInit 1) 5 [] = pacemakerRun ⟨1, 0, 5⟩ [] :=
  ⟨pacemaker_exit_cases.1 (pmInit 1) [PEvent.stop] PExit.stopped (by decide),
   pacemaker_exit_cases.2.1 (pmInit 1) [],
   pacemaker_exit_cases.2.2.1 (pmInit 1) [] 4 GErr.errDead,
   pacemaker_exit_cases.2.2.2.1 ⟨1, 0, 1⟩ [] 9 (by decide),
   pacemaker_exit_cases.2.2.2.2 (pmInit 1) 5 []⟩

/-- Claim C2: for every pacemaker state, `Dead()` returns true iff both
`SentBeat` and `EchoBeat` are non-zero and `SentBeat - EchoBeat` exceeds
twice the `Heartrate`; in particular it returns false whenever either
timestamp is zero. -/
theorem pacemaker_dead_iff (p : Pacemaker) :
    (p.Dead = true ↔
      p.SentBeat ≠ 0 ∧ p.EchoBeat ≠ 0 ∧
        p.SentBeat - p.EchoBeat > 2 * p.Heartrate) ∧
    ((p.SentBeat = 0 ∨ p.EchoBeat = 0) → p.Dead = false) := by
  unfold Pacemaker.Dead
  rcases eq_or_ne p.EchoBeat 0 with he | he <;>
    rcases eq_or_ne p.SentBeat 0 with hs | hs <;>
      (simp [he, hs]; try omega)

theorem pacemaker_dead_iff_witness :
    ((Pacemaker.Dead ⟨1, 9, 1⟩ = true ↔
      (9 : Int) ≠ 0 ∧ (1 : Int) ≠ 0 ∧ (9 : Int) - 1 > 2 * 1) ∧
    (((9 : Int) = 0 ∨ (1 : Int) = 0) → Pacemaker.Dead ⟨1, 9, 1⟩ = false)) :=
  pacemaker_dead_iff ⟨1, 9, 1⟩

theorem stopIter_cleared (n c : Nat) :
    stopIter n { stop := false, stopCloses := c } =
      { stop := false, stopCloses := c } := by
  induction n with
  | zero => rfl
  | succ n ih =>
    simp only [stopIter, stopOp]
    simpa using ih

/-- Claim C8: on a started pacemaker, any number `k ≥ 1` of calls to
`Stop()` closes the stop channel exactly once: the first call closes it
and nils the field, and every repeated call is a no-op. -/
theorem pacemaker_stop_idempotent (k : Nat) (hk : 1 ≤ k) :
    stopIter k startAsyncStop = { stop := false, stopCloses := 1 } := by
  obtain ⟨j, rfl⟩ : ∃ j, k = j + 1 := ⟨k - 1, by omega⟩
  have h1 : stopOp startAsyncStop = { stop := false, stopCloses := 1 } := rfl
  show stopIter (Nat.succ j) startAsyncStop = _
  simp only [stopIter, h1]
  exact stopIter_cleared j 1

theorem pacemaker_stop_idempotent_witness :
    1 ≤ 3 ∧ stopIter 3 startAsyncStop = { stop := false, stopCloses := 1 } :=
  ⟨by decide, pacemaker_stop_idempotent 3 (by decide)⟩

/-- Claim C7: on an opened gateway (the pacemaker's stop channel is set),
`Close()` closes the stop channel, then waits on the join waitgroup -
returning only once the owned task count is zero - and only then closes
the websocket transport, returning the transport's close result. -/
theorem gateway_close_order (s : CloseState) (ce : Option GErr)
    (hs : s.pm.stop = true) :
    gatewayClose s ce =
      (ce,
       { pm := { stop := false, stopCloses := s.pm.stopCloses + 1 },
         tasks := 0, wsOpen := false },
       [CloseEvent.stopClosed, CloseEvent.waited, CloseEvent.wsClosed]) := by
  simp [gatewayClose, pacemakerStopRun, stopOp, hs]

theorem gateway_close_order_witness :
    gatewayClose { pm := startAsyncStop, tasks := 2, wsOpen := true } none =
      (none,
       { pm := { stop := false, stopCloses := 1 },
         tasks := 0, wsOpen := false },
       [CloseEvent.stopClosed, CloseEvent.waited, CloseEvent.wsClosed]) :=
  gateway_close_order { pm := startAsyncStop, tasks := 2, wsOpen := true }
    none rfl

/-- Claim C10: whenever the inner `start()` fails on a gateway whose
pacemaker has been started, the exported `Start()` wrapper closes the
gateway (stopping the pacemaker, waiting out the tasks and closing the
websocket) before returning, and it returns the original `start()` error
whatever error the cleanup close produced. -/
theorem start_wrapper_cleanup (s : CloseState) (e : GErr)
    (ce : Option GErr) (hs : s.pm.stop = true) :
    gatewayStartWrapper s (some e) ce =
      (some e,
       { pm := { stop := false, stopCloses := s.pm.stopCloses + 1 },
         tasks := 0, wsOpen := false },
       [CloseEvent.stopClosed, CloseEvent.waited, CloseEvent.wsClosed]) := by
  simp [gatewayStartWrapper, gatewayClose, pacemakerStopRun, stopOp, hs]

theorem start_wrapper_cleanup_witness :
    gatewayStartWrapper { pm := startAsyncStop, tasks := 2, wsOpen := true }
        (some GErr.errDead) (some (GErr.msg "close failed")) =
      (some GErr.errDead,
       { pm := { stop := false, stopCloses := 1 },
         tasks := 0, wsOpen := false },
       [CloseEvent.stopClosed, CloseEvent.waited, CloseEvent.wsClosed]) :=
  start_wrapper_cleanup { pm := startAsyncStop, tasks := 2, wsOpen := true }
    GErr.errDead (some (GErr.msg "close failed")) rfl

/-- Claim C3: in the `Open()` retry loop, a dial failure is logged and
retried without terminating the loop; a `Start()` failure equal to
`ErrInvalidSession` is retried without logging; any other `Start()`
failure is logged and retried; and the loop returns (nil) exactly when
an iteration succeeds, so `Open()` returns only after a successful dial
and start. -/
theorem open_retry_policy :
    (∀ (e : GErr) (tr : List Attempt),
      openRun (Attempt.dialFail e :: tr) =
        ((openRun tr).1, OpenLog.dialErr e :: (openRun tr).2)) ∧
    (∀ tr : List Attempt,
      openRun (Attempt.startFail GErr.errInvalidSession :: tr) =
        openRun tr) ∧
    (∀ (e : GErr) (tr : List Attempt), e ≠ GErr.errInvalidSession →
      openRun (Attempt.startFail e :: tr) =
        ((openRun tr).1, OpenLog.startErr e :: (openRun tr).2)) ∧
    (∀ tr : List Attempt,
      (openRun tr).1 = some () ↔ Attempt.success ∈ tr) := by
  refine ⟨?_, ?_, ?_, ?_⟩
  · intro e tr
    simp [openRun]
  · intro tr
    simp [openRun]
  · intro e tr he
    simp [openRun, he]
  · intro tr
    induction tr with
    | nil => simp [openRun]
    | cons a rest ih =>
      cases a with
      | dialFail e => simpa [openRun] using ih
      | startFail e =>
        by_cases he : e = GErr.errInvalidSession
        · subst he
          simpa [openRun] using ih
        · simpa [openRun, he] using ih
      | success => simp [openRun]

theorem open_retry_policy_witness :
    openRun [Attempt.dialFail GErr.errDead, Attempt.success] =
      ((openRun [Attempt.success]).1,
        OpenLog.dialErr GErr.errDead :: (openRun [Attempt.success]).2) ∧
    openRun [Attempt.startFail (GErr.msg "hello timeout")] =
      ((openRun []).1,
        OpenLog.startErr (GErr.msg "hello timeout") :: (openRun []).2) ∧
    ((openRun [Attempt.dialFail GErr.errDead, Attempt.success]).1 =
        some () ↔
      Attempt.success ∈ [Attempt.dialFail GErr.errDead, Attempt.success]) :=
  ⟨open_retry_policy.1 GErr.errDead [Attempt.success],
   open_retry_policy.2.2.1 (GErr.msg "hello timeout") [] (by decide),
   open_retry_policy.2.2.2
     [Attempt.dialFail GErr.errDead, Attempt.success]⟩

/-- Claim C4 counterexample: a frame carrying a decode error is logged
via `ErrorLog` but the event loop does not exit - contradicting the claim
that every such protocol error makes the event loop exit and reconnect. -/
theorem eventLoop_error_frame_no_exit :
    (eventLoopRun [LoopIn.frame (Frame.errFrame (GErr.msg "malformed"))]).1 =
        none ∧
    (eventLoopRun [LoopIn.frame (Frame.errFrame (GErr.msg "malformed"))]).2 =
        [GErr.msg "malformed"] :=
  ⟨rfl, rfl⟩

/-- Claim C4 (amended): in the active event loop, a frame carrying a
decode error is logged and the loop continues; a frame whose payload
handling fails is logged (wrapped) and the loop continues; only a frame
with empty event data makes the loop exit with an error, upon which
`handleWS` attempts a reconnect (and a nil pacemaker exit ends the loop
without a reconnect). -/
theorem eventLoop_protocol_errors :
    (∀ (e : GErr) (tr : List LoopIn),
      eventLoopRun (LoopIn.frame (Frame.errFrame e) :: tr) =
        ((eventLoopRun tr).1, e :: (eventLoopRun tr).2)) ∧
    (∀ (n : Nat) (e : GErr) (tr : List LoopIn),
      eventLoopRun
          (LoopIn.frame (Frame.dataFrame (Nat.succ n) (some e)) :: tr) =
        ((eventLoopRun tr).1,
          GErr.wrap "WS handler error" e :: (eventLoopRun tr).2)) ∧
    (∀ (h : Option GErr) (tr : List LoopIn),
      eventLoopRun (LoopIn.frame (Frame.dataFrame 0 h) :: tr) =
        (some (LoopExit.fail "Event data is empty, reconnecting."), [])) ∧
    handleWSReconnects
        (LoopExit.fail "Event data is empty, reconnecting.") = true ∧
    handleWSReconnects LoopExit.ok = false := by
  refine ⟨?_, ?_, ?_, rfl, rfl⟩
  · intro e tr
    simp [eventLoopRun]
  · intro n e tr
    simp [eventLoopRun]
  · intro h tr
    simp [eventLoopRun]

/-- Claim C1: `start()` sends IDENTIFY exactly when the stored session id
is empty and RESUME for the stored session otherwise; after a `READY`
that set a non-empty session id the next start sends RESUME, and after a
non-resumable `INVALID_SESSION` cleared the session id the next start
sends IDENTIFY. -/
theorem start_identify_or_resume :
    (∀ g : GwSession, startAuth g = StartSend.identify ↔ g.SessionID = "") ∧
    (∀ (g : GwSession) (s : String), s ≠ "" →
      startAuth (handleReady g s) = StartSend.resume s) ∧
    (∀ g : GwSession,
      startAuth (handleInvalidSession g false) = StartSend.identify) ∧
    (∀ g : GwSession, g.SessionID ≠ "" →
      startAuth g = StartSend.resume g.SessionID) := by
  refine ⟨?_, ?_, ?_, ?_⟩
  · intro g
    constructor
    · intro h
      by_contra hne
      simp [startAuth, hne] at h
    · intro h
      simp [startAuth, h]
  · intro g s hs
    simp [startAuth, handleReady, hs]
  · intro g
    simp [startAuth, handleInvalidSession]
  · intro g h
    simp [startAuth, h]

theorem start_identify_or_resume_witness :
    (startAuth { SessionID := "" } = StartSend.identify ↔
      ({ SessionID := "" } : GwSession).SessionID = "") ∧
    startAuth (handleReady { SessionID := "" } "S") = StartSend.resume "S" ∧
    startAuth (handleInvalidSession { SessionID := "S" } false) =
      StartSend.identify ∧
    startAuth { SessionID := "S" } = StartSend.resume "S" :=
  ⟨start_identify_or_resume.1 { SessionID := "" },
   start_identify_or_resume.2.1 { SessionID := "" } "S" (by decide),
   start_identify_or_resume.2.2.1 { SessionID := "S" },
   start_identify_or_resume.2.2.2 { SessionID := "S" } (by decide)⟩

/-- Claim C9: `Login` with an empty mfa string fails with the sentinel
`ErrMFA` (never a wrapped transport error) whenever the remote requires
MFA - no token returned or the MFA flag set - and when the remote returns
a token without requiring MFA, the session is constructed from that token
without consulting the mfa argument. -/
theorem login_mfa :
    (∀ (l : LoginResponse) (totpResp : Except GErr LoginResponse),
      l.Token = "" ∨ l.MFA = true →
      sessionLogin (Except.ok l) totpResp "" = LoginResult.mfaErr) ∧
    (∀ (l : LoginResponse) (totpResp : Except GErr LoginResponse)
        (mfa : String), l.Token ≠ "" → l.MFA = false →
      sessionLogin (Except.ok l) totpResp mfa =
        LoginResult.session l.Token) ∧
    (∀ (m : String) (e : GErr),
      LoginResult.mfaErr ≠ LoginResult.wrapped m e) := by
  refine ⟨?_, ?_, ?_⟩
  · intro l totpResp hreq
    have hno : ¬(l.Token ≠ "" ∧ l.MFA = false) := by
      rcases hreq with h | h <;> simp [h]
    simp [sessionLogin, hno]
  · intro l totpResp mfa ht hm
    simp [sessionLogin, ht, hm]
  · intro m e
    simp

theorem login_mfa_witness :
    sessionLogin (Except.ok { Token := "", MFA := true, Ticket := "t" })
        (Except.ok { Token := "tok2", MFA := false, Ticket := "" }) "" =
      LoginResult.mfaErr ∧
    sessionLogin (Except.ok { Token := "tok", MFA := false, Ticket := "" })
        (Except.error GErr.errDead) "123456" =
      LoginResult.session "tok" ∧
    LoginResult.mfaErr ≠ LoginResult.wrapped "Failed to login" GErr.errDead :=
  ⟨login_mfa.1 { Token := "", MFA := true, Ticket := "t" }
      (Except.ok { Token := "tok2", MFA := false, Ticket := "" })
      (Or.inl rfl),
   login_mfa.2.1 { Token := "tok", MFA := false, Ticket := "" }
      (Except.error GErr.errDead) "123456" (by decide) rfl,
   login_mfa.2.2 "Failed to login" GErr.errDead⟩

end Arikawa
